import Mathlib

/-!
Shallow embedding of the DPS (device provisioning service) registration client
of `edgelet/dps/src/registration.rs`: the SAS-token signer (`DpsTokenSource`),
the challenge-response registration flow (`register_with_auth`, `register`),
and the bounded polling loop (`get_device_registration_result`).

Modelling conventions:
* bytes are `Nat` values, kept below 256 by taking `% 256` where a byte is built;
* the HTTP transport is abstracted: each request's outcome is an input of the
  model (`Except HttpErrorKind (Option resp)`), matching the Rust client's
  `Future<Item = Option<Resp>, Error = Error>` shape;
* JSON parsing of a 401 challenge body (`serde_json::from_str`) is abstracted by
  representing the body by its parse outcome (`Except Unit TpmRegistrationResult`);
* the key store is threaded explicitly as state, with the shared-store semantics
  the spec describes (an activation performed in one step is visible to the next);
* mutable effects of futures are made explicit: functions return the updated key
  store, whether the signed register request was issued, and how many poll probes
  were issued, alongside their `Except` result.
-/

namespace Dps

/-- Bytes are modelled as natural numbers below 256. -/
abbrev KeyBytes := List Nat

/-- Model of `edgelet_core::crypto::KeyIdentity`; only `Device` is used here. -/
inductive KeyIdentity where
  | device
deriving DecidableEq

/-- Model of `model::TpmRegistrationResult`: the body of the service's 401
challenge response, `{authenticationKey}` (base64). -/
structure TpmRegistrationResult where
  authentication_key : Option String
deriving DecidableEq

/-- Model of `model::DeviceRegistrationResult`:
`{registrationId, status, deviceId?, assignedHub?, tpm?}`. -/
structure DeviceRegistrationResult where
  registration_id : String
  status : String
  device_id : Option String
  assigned_hub : Option String
  tpm : Option TpmRegistrationResult
deriving DecidableEq

/-- Model of `model::RegistrationOperationStatus`:
`{operationId, status?, registrationState?}`. -/
structure RegistrationOperationStatus where
  operation_id : String
  status : Option String
  registration_state : Option DeviceRegistrationResult
deriving DecidableEq

instance {ε α : Type _} [DecidableEq ε] [DecidableEq α] : DecidableEq (Except ε α) := fun a b =>
  match a, b with
  | .error u, .error v =>
    if h : u = v then isTrue (by rw [h]) else isFalse (by intro hc; cases hc; exact h rfl)
  | .ok x, .ok y =>
    if h : x = y then isTrue (by rw [h]) else isFalse (by intro hc; cases hc; exact h rfl)
  | .error _, .ok _ => isFalse (by intro hc; cases hc)
  | .ok _, .error _ => isFalse (by intro hc; cases hc)

/-- Model of `edgelet_http::ErrorKind` as observed by `registration.rs`:
`ServiceError(status, body)` carries the HTTP status and the raw body (here
represented by its parse outcome as a `TpmRegistrationResult`); every other
transport failure is collapsed into `other`. -/
inductive HttpErrorKind where
  | serviceError (status : Nat) (body : Except Unit TpmRegistrationResult)
  | other
deriving DecidableEq

/-- Modelled from the spec: the error kinds of the dps crate's `error.rs` (the
file itself is not part of the sources, only its uses are), following spec §7
and the `Error::from` conversions used by `registration.rs`: a transport error
converts to a kind wrapping the underlying HTTP error (`http`), serde parse
failures to `serde`, base64 decode failures to `base64Decode`, key-store
failures to `keyStore`, signing failures to `sign`. -/
inductive ErrorKind where
  | http (e : HttpErrorKind)
  | serde
  | base64Decode
  | keyStore
  | sign
  | invalidTpmToken
  | notAssigned
  | unexpected
  | timerError
deriving DecidableEq

/-- Model of the key store (`A : KeyStore + Activate`): an association list from
`(identity, key name)` to raw key bytes; `activate_identity_key` prepends (so it
overwrites for lookup purposes) and `get` finds the most recent binding. -/
structure KeyStore where
  keys : List ((KeyIdentity × String) × KeyBytes)
deriving DecidableEq

/-- Lookup helper for the key store association list. -/
def lookupKey : List ((KeyIdentity × String) × KeyBytes) → KeyIdentity → String → Option KeyBytes
  | [], _, _ => none
  | (k, v) :: rest, i, name => if k = (i, name) then some v else lookupKey rest i name

/-- Model of `Activate::activate_identity_key` with overwrite semantics. -/
def KeyStore.activate_identity_key (s : KeyStore) (i : KeyIdentity) (name : String)
    (v : KeyBytes) : KeyStore :=
  ⟨((i, name), v) :: s.keys⟩

/-- Model of `KeyStore::get`: retrieves the currently active key bytes, `none`
if the slot is absent. -/
def KeyStore.get (s : KeyStore) (i : KeyIdentity) (name : String) : Option KeyBytes :=
  lookupKey s.keys i name

/-- The empty key store. -/
def KeyStore.empty : KeyStore := ⟨[]⟩

theorem KeyStore.get_activate (s : KeyStore) (i : KeyIdentity) (name : String) (v : KeyBytes) :
    (s.activate_identity_key i name v).get i name = some v := by
  simp [KeyStore.get, KeyStore.activate_identity_key, lookupKey]

/-! ### base64 (standard alphabet, padded), as used by the `base64` crate -/

/-- The standard base64 alphabet. -/
def base64Alphabet : List Char :=
  "ABCDEFGHIJKLMNOPQRSTUVWXYZabcdefghijklmnopqrstuvwxyz0123456789+/".data

/-- The base64 digit for a 6-bit value. -/
def base64Char (n : Nat) : Char := base64Alphabet.getD n 'A'

/-- Model of `base64::encode` on raw bytes (standard config, padded). -/
def b64encode : List Nat → List Char
  | [] => []
  | [a] =>
    let a := a % 256
    [base64Char (a / 4), base64Char (a % 4 * 16), '=', '=']
  | [a, b] =>
    let a := a % 256
    let b := b % 256
    [base64Char (a / 4), base64Char (a % 4 * 16 + b / 16), base64Char (b % 16 * 4), '=']
  | a :: b :: c :: rest =>
    let a' := a % 256
    let b' := b % 256
    let c' := c % 256
    base64Char (a' / 4) :: base64Char (a' % 4 * 16 + b' / 16) ::
      base64Char (b' % 16 * 4 + c' / 64) :: base64Char (c' % 64) :: b64encode rest

/-- Model of `base64::encode` producing a string. -/
def b64encodeString (bytes : List Nat) : String := String.mk (b64encode bytes)

/-- The 6-bit value of a base64 digit, `none` for a character outside the
alphabet. -/
def b64charVal (c : Char) : Option Nat := base64Alphabet.findIdx? (· = c)

/-- Model of `base64::decode` on a character list (standard config: 4-character
blocks, `=` padding allowed only at the very end). -/
def b64decode : List Char → Option (List Nat)
  | [] => some []
  | c1 :: c2 :: c3 :: c4 :: rest =>
    match b64charVal c1, b64charVal c2 with
    | some v1, some v2 =>
      if c3 = '=' then
        if c4 = '=' ∧ rest = [] then some [v1 * 4 + v2 / 16] else none
      else
        match b64charVal c3 with
        | some v3 =>
          if c4 = '=' then
            if rest = [] then some [v1 * 4 + v2 / 16, v2 % 16 * 16 + v3 / 4] else none
          else
            match b64charVal c4 with
            | some v4 =>
              (b64decode rest).map
                (fun tail =>
                  (v1 * 4 + v2 / 16) :: (v2 % 16 * 16 + v3 / 4) :: (v3 % 4 * 64 + v4) :: tail)
            | none => none
        | none => none
    | _, _ => none
  | _ => none

/-- Model of `base64::decode` on a string. -/
def b64decodeString (s : String) : Option (List Nat) := b64decode s.data

/-! ### ASCII case-insensitive comparison (`str::eq_ignore_ascii_case`) -/

/-- ASCII lowercasing of a single character, other characters unchanged
(model of `u8::to_ascii_lowercase`, lifted to characters). -/
def asciiLower (c : Char) : Char :=
  if 65 ≤ c.toNat ∧ c.toNat ≤ 90 then Char.ofNat (c.toNat + 32) else c

/-- Model of `str::eq_ignore_ascii_case`. -/
def eqIgnoreAsciiCase (a b : String) : Bool :=
  a.data.map asciiLower == b.data.map asciiLower

/-! ### UTF-8, percent-encoding and form-urlencoding -/

/-- UTF-8 encoding of a single character as a byte list. -/
def utf8EncodeChar (c : Char) : List Nat :=
  let n := c.toNat
  if n < 128 then [n]
  else if n < 2048 then [192 + n / 64, 128 + n % 64]
  else if n < 65536 then [224 + n / 4096, 128 + n / 64 % 64, 128 + n % 64]
  else [240 + n / 262144, 128 + n / 4096 % 64, 128 + n / 64 % 64, 128 + n % 64]

/-- The UTF-8 bytes of a string (model of `str::as_bytes`). -/
def utf8Bytes (s : String) : List Nat := (s.data.map utf8EncodeChar).flatten

/-- Uppercase hexadecimal digit for a value below 16. -/
def hexUpper (n : Nat) : Char := "0123456789ABCDEF".data.getD n '0'

/-- Model of the `IOTHUB_ENCODE_SET` of `registration.rs` as a byte predicate:
`PATH_SEGMENT_ENCODE_SET` (itself `DEFAULT_ENCODE_SET` plus `%` and `/`, where
the default set is the simple set — C0 controls and bytes above 0x7E — plus
space, double quote, `#`, `<`, `>`, backquote (0x60), `?` and curly braces)
extended with `=`. -/
def iothubEncodeSet (b : Nat) : Bool :=
  b < 32 || b > 126 ||
    (b = 32 || b = 34 || b = 35 || b = 60 || b = 62 || b = 96 || b = 63 || b = 123 || b = 125) ||
    (b = 37 || b = 47) ||
    b = 61

/-- Percent-encoding of one byte under an encode set (model of the
`percent_encoding` crate: bytes in the set become `%XX` with uppercase hex,
other bytes pass through). -/
def percentEncodeByte (inSet : Nat → Bool) (b : Nat) : List Char :=
  if inSet (b % 256) then ['%', hexUpper (b % 256 / 16), hexUpper (b % 16)]
  else [Char.ofNat (b % 256)]

/-- Model of `percent_encoding::percent_encode(..).to_string()` on a byte
sequence. -/
def percentEncode (inSet : Nat → Bool) (bytes : List Nat) : String :=
  String.mk ((bytes.map (percentEncodeByte inSet)).flatten)

/-- Form-urlencoding of one byte, as the `url` crate's
`form_urlencoded::byte_serialize` does: space becomes `+`; ASCII alphanumerics
and `*`, `-`, `.`, `_` pass through; every other byte becomes `%XX`. -/
def formUrlencodeByte (b : Nat) : List Char :=
  let b := b % 256
  if b = 32 then ['+']
  else if (48 ≤ b ∧ b ≤ 57) ∨ (65 ≤ b ∧ b ≤ 90) ∨ (97 ≤ b ∧ b ≤ 122) ∨
      b = 42 ∨ b = 45 ∨ b = 46 ∨ b = 95 then [Char.ofNat b]
  else ['%', hexUpper (b / 16), hexUpper (b % 16)]

/-- Form-urlencoding of a string's UTF-8 bytes. -/
def formUrlencode (s : String) : String :=
  String.mk (((utf8Bytes s).map formUrlencodeByte).flatten)

/-- Model of `url::form_urlencoded::Serializer::append_pair` on a serializer
whose accumulated output is `target`: append `&` when the output is non-empty,
then the form-urlencoded key, `=`, and the form-urlencoded value. -/
def urlAppendPair (target key value : String) : String :=
  (if 0 < target.length then target ++ "&" else target) ++
    formUrlencode key ++ "=" ++ formUrlencode value

/-! ### `DpsTokenSource` -/

/-- Model of `edgelet_core::crypto::SignatureAlgorithm`. -/
inductive SignatureAlgorithm where
  | hmacsha256

/-- Model of a signing key `K : Sign + Clone`: a handle whose capability is to
produce signature bytes over input bytes for an algorithm, or fail. -/
structure SignKey where
  sign : SignatureAlgorithm → List Nat → Except Unit (List Nat)

/-- Model of `DpsTokenSource`: scope id, registration id and the signing key. -/
structure DpsTokenSource where
  scope_id : String
  registration_id : String
  key : SignKey

/-- ASCII lowercasing of a string, model of `str::to_lowercase` (which agrees
with plain ASCII lowercasing on the ASCII range). -/
def to_lowercase (s : String) : String := String.mk (s.data.map Char.toLower)

/-- The token audience, `"{scope_id}/registrations/{registration_id}"`. -/
def token_audience (ts : DpsTokenSource) : String :=
  ts.scope_id ++ "/registrations/" ++ ts.registration_id

/-- The resource URI: percent-encoding of the lowercased audience's bytes under
`IOTHUB_ENCODE_SET`. -/
def token_resource_uri (ts : DpsTokenSource) : String :=
  percentEncode iothubEncodeSet (utf8Bytes (to_lowercase (token_audience ts)))

/-- The signature input, `"{resourceUri}\n{expirySeconds}"`. -/
def token_sig_data (ts : DpsTokenSource) (expiry : Int) : String :=
  token_resource_uri ts ++ "\n" ++ toString expiry

/-- Model of `TokenSource::get for DpsTokenSource` (`registration.rs` lines
67–87). The caller-supplied `DateTime<Utc>` is abstracted by its timestamp
(`expiry : Int`, seconds since the epoch). The token is assembled with the
form-urlencoded serializer seeded with `"sr={resource_uri}"`. -/
def DpsTokenSource.get (ts : DpsTokenSource) (expiry : Int) : Except ErrorKind String :=
  match ts.key.sign .hmacsha256 (utf8Bytes (token_sig_data ts expiry)) with
  | .error _ => .error .sign
  | .ok s =>
    let signature := b64encodeString s
    .ok (urlAppendPair
          (urlAppendPair
            (urlAppendPair ("sr=" ++ token_resource_uri ts) "sig" signature)
            "se" (toString expiry))
          "skn" "registration")

/-! ### Polling (`is_skippable_result`, `get_operation_status`,
`get_device_registration_result`) -/

/-- Model of `DpsClient::is_skippable_result` (`registration.rs` lines
222–237): `Ok(true)` when there is no result or its status is
case-insensitively `"assigning"`, `Ok(false)` otherwise. -/
def is_skippable_result (registration_result : Option DeviceRegistrationResult) :
    Except ErrorKind Bool :=
  match registration_result with
  | some r => .ok (eqIgnoreAsciiCase r.status "assigning")
  | none => .ok true

/-- Model of `DpsClient::get_operation_status` (`registration.rs` lines
180–218) given the transport's outcome for the signed status GET: a transport
error is surfaced through `Error::from` (kind `http`); a success unwraps the
optional `registration_state` of the optional operation status. -/
def get_operation_status
    (response : Except HttpErrorKind (Option RegistrationOperationStatus)) :
    Except ErrorKind (Option DeviceRegistrationResult) :=
  match response with
  | .error e => .error (.http e)
  | .ok operation_status =>
    .ok (match operation_status with
        | none => none
        | some op =>
          match op.registration_state with
          | none => none
          | some r => some r)

/-- The poll-tick loop underlying `get_device_registration_result`: the stream
of timer ticks limited to the remaining budget (`take(retry_count)`), each tick
probing the operation status (`and_then`), discarding skippable results
(`skip_while`), stopping at the first non-skippable one (`take(1)`) and folding
it into the final value. `tick` is the index of the next probe; the second
component counts the probes actually issued. -/
def pollLoop (responses : Nat → Except HttpErrorKind (Option RegistrationOperationStatus)) :
    Nat → Nat → Except ErrorKind (Option DeviceRegistrationResult) × Nat
  | _, 0 => (.ok none, 0)
  | tick, n + 1 =>
    match get_operation_status (responses tick) with
    | .error e => (.error e, 1)
    | .ok r =>
      match is_skippable_result r with
      | .error e => (.error e, 1)
      | .ok true =>
        let rest := pollLoop responses (tick + 1) n
        (rest.1, rest.2 + 1)
      | .ok false => (.ok r, 1)

/-- Model of `DpsClient::get_device_registration_result` (`registration.rs`
lines 247–283): poll DPS up to `retry_count` times, where `responses k` is the
transport outcome of the `k`-th status probe; returns the final optional result
together with the number of probes issued. -/
def get_device_registration_result
    (responses : Nat → Except HttpErrorKind (Option RegistrationOperationStatus))
    (retry_count : Nat) :
    Except ErrorKind (Option DeviceRegistrationResult) × Nat :=
  pollLoop responses 0 retry_count

/-! ### Challenge-response registration -/

/-- Model of `DPS_ASSIGNMENT_RETRY_INTERVAL_SECS`: the interval at which to
poll DPS for registration assignment status. -/
def DPS_ASSIGNMENT_RETRY_INTERVAL_SECS : Nat := 10

/-- Model of `DPS_ASSIGNMENT_TIMEOUT_SECS`: the number of seconds to wait for
DPS to complete assignment to a hub. -/
def DPS_ASSIGNMENT_TIMEOUT_SECS : Nat := 120

/-- The retry count computed by `DpsClient::register` (`registration.rs` lines
379–381): `DPS_ASSIGNMENT_TIMEOUT_SECS / DPS_ASSIGNMENT_RETRY_INTERVAL_SECS + 1`
with Rust's truncating `u64` division. -/
def registerRetryCount : Nat :=
  DPS_ASSIGNMENT_TIMEOUT_SECS / DPS_ASSIGNMENT_RETRY_INTERVAL_SECS + 1

/-- Model of `DpsClient::get_tpm_challenge_key` (`registration.rs` lines
128–150): parse the 401 body as a `TpmRegistrationResult` (the body is
represented by its parse outcome), require its `authenticationKey`,
base64-decode it, activate it as the device's primary key, and get the
resulting signing key back (here: the stored raw bytes). Returns the key
together with the updated key store. -/
def get_tpm_challenge_key (body : Except Unit TpmRegistrationResult)
    (key_store : KeyStore) : Except ErrorKind (KeyBytes × KeyStore) :=
  match body with
  | .error _ => .error .serde
  | .ok tpm_challenge =>
    match tpm_challenge.authentication_key with
    | none => .error .invalidTpmToken
    | some key_str =>
      match b64decodeString key_str with
      | none => .error .base64Decode
      | some key_bytes =>
        let ks := key_store.activate_identity_key .device "primary" key_bytes
        match ks.get .device "primary" with
        | none => .error .keyStore
        | some k => .ok (k, ks)

/-- Model of `DpsClient::get_operation_id` (`registration.rs` lines 152–178)
given the transport's outcome for the signed register PUT: a transport error is
surfaced through `Error::from` (kind `http`). -/
def get_operation_id
    (response : Except HttpErrorKind (Option RegistrationOperationStatus)) :
    Except ErrorKind (Option RegistrationOperationStatus) :=
  match response with
  | .error e => .error (.http e)
  | .ok r => .ok r

/-- Model of `DpsClient::register_with_auth` (`registration.rs` lines 285–349).
`unsignedResponse` is the transport outcome of the initial unsigned register
PUT; `signedResponse` is the transport outcome of the signed reissue (consulted
only if that request is issued). Returns the operation status result, the key
store after any challenge-key activation, and whether the signed register
request was issued. -/
def register_with_auth
    (unsignedResponse : Except HttpErrorKind (Option TpmRegistrationResult))
    (signedResponse : Except HttpErrorKind (Option RegistrationOperationStatus))
    (key_store : KeyStore) :
    Except ErrorKind (Option RegistrationOperationStatus) × KeyStore × Bool :=
  match unsignedResponse with
  | .ok _ => (.error .unexpected, key_store, false)
  | .error err =>
    let body : Option (Except Unit TpmRegistrationResult) :=
      match err with
      | .serviceError status b => if status = 401 then some b else none
      | .other => none
    match body with
    | some b =>
      match get_tpm_challenge_key b key_store with
      | .ok (_key, ks) => (get_operation_id signedResponse, ks, true)
      | .error e => (.error e, key_store, false)
    | none => (.error (.http err), key_store, false)

/-- Model of `get_device_info` (`registration.rs` lines 426–439): both the
device id and the assigned hub must be present, else `NotAssigned`. -/
def get_device_info (registration_result : DeviceRegistrationResult) :
    Except ErrorKind (String × String) :=
  match registration_result.device_id with
  | none => .error .notAssigned
  | some d =>
    match registration_result.assigned_hub with
    | none => .error .notAssigned
    | some h => .ok (d, h)

/-- Model of the terminal-handling stage of `DpsClient::register`
(`registration.rs` lines 395–421, the closure over the polling outcome): an
absent result, an absent `tpm`, or an absent `tpm.authenticationKey` fail with
`NotAssigned`; otherwise the key is base64-decoded and activated as the primary
device key, and then the device id and assigned hub are extracted. Returns the
result together with the key store after any activation. -/
def register_terminal (key_store : KeyStore)
    (operation_status : Option DeviceRegistrationResult) :
    Except ErrorKind (String × String) × KeyStore :=
  match operation_status with
  | none => (.error .notAssigned, key_store)
  | some s =>
    match s.tpm with
    | none => (.error .notAssigned, key_store)
    | some r =>
      match r.authentication_key with
      | none => (.error .notAssigned, key_store)
      | some ks =>
        match b64decodeString ks with
        | none => (.error .base64Decode, key_store)
        | some kb =>
          let store := key_store.activate_identity_key .device "primary" kb
          (get_device_info s, store)

/-- Model of `DpsClient::register` (`registration.rs` lines 351–423):
challenge-response registration (`register_with_auth`), then — with the freshly
activated challenge key fetched from the store — bounded polling on the
returned operation, then terminal handling of the polled result.
`pollResponses k` is the transport outcome of the `k`-th status probe. Returns
the result, the final key store, and the number of poll probes issued. -/
def register
    (unsignedResponse : Except HttpErrorKind (Option TpmRegistrationResult))
    (signedResponse : Except HttpErrorKind (Option RegistrationOperationStatus))
    (pollResponses : Nat → Except HttpErrorKind (Option RegistrationOperationStatus))
    (key_store : KeyStore) :
    Except ErrorKind (String × String) × KeyStore × Nat :=
  match register_with_auth unsignedResponse signedResponse key_store with
  | (.error e, ks, _) => (.error e, ks, 0)
  | (.ok operation_status, ks, _) =>
    match ks.get .device "primary" with
    | none => (.error .keyStore, ks, 0)
    | some _k =>
      match operation_status with
      | none => (.error .notAssigned, ks, 0)
      | some _s =>
        match get_device_registration_result pollResponses registerRetryCount with
        | (.error e, probes) => (.error e, ks, probes)
        | (.ok dr, probes) =>
          let (tr, ks2) := register_terminal ks dr
          (tr, ks2, probes)

/-! ### Polling lemmas -/

/-- Probe `k` succeeds at the transport level and its unwrapped result is
classified skippable. -/
abbrev skippableProbe
    (responses : Nat → Except HttpErrorKind (Option RegistrationOperationStatus))
    (k : Nat) : Prop :=
  ∃ r, get_operation_status (responses k) = .ok r ∧ is_skippable_result r = .ok true

theorem pollLoop_all_skip
    (responses : Nat → Except HttpErrorKind (Option RegistrationOperationStatus))
    (n : Nat) :
    ∀ tick, (∀ k, k < n → skippableProbe responses (tick + k)) →
      pollLoop responses tick n = (.ok none, n) := by
  induction n with
  | zero => intro tick _; rfl
  | succ m ih =>
    intro tick h
    obtain ⟨r, hg, hs⟩ := h 0 (Nat.succ_pos m)
    rw [Nat.add_zero] at hg
    have hrest := ih (tick + 1) (fun k hk => by
      have hh := h (k + 1) (Nat.succ_lt_succ hk)
      have he : tick + (k + 1) = tick + 1 + k := by omega
      rwa [he] at hh)
    simp [pollLoop, hg, hs, hrest]

theorem pollLoop_stops
    (responses : Nat → Except HttpErrorKind (Option RegistrationOperationStatus)) :
    ∀ k n tick r, k < n →
      (∀ j, j < k → skippableProbe responses (tick + j)) →
      get_operation_status (responses (tick + k)) = .ok r →
      is_skippable_result r = .ok false →
      pollLoop responses tick n = (.ok r, k + 1) := by
  intro k
  induction k with
  | zero =>
    intro n tick r hk hpre hg hs
    rw [Nat.add_zero] at hg
    match n, hk with
    | m + 1, _ => simp [pollLoop, hg, hs]
  | succ j ih =>
    intro n tick r hk hpre hg hs
    match n, hk with
    | m + 1, hk =>
      obtain ⟨r0, hg0, hs0⟩ := hpre 0 (Nat.succ_pos j)
      rw [Nat.add_zero] at hg0
      have hrec := ih m (tick + 1) r (Nat.lt_of_succ_lt_succ hk)
        (fun i hi => by
          have hh := hpre (i + 1) (Nat.succ_lt_succ hi)
          have he : tick + (i + 1) = tick + 1 + i := by omega
          rwa [he] at hh)
        (by
          have he : tick + (j + 1) = tick + 1 + j := by omega
          rwa [he] at hg) hs
      simp [pollLoop, hg0, hs0, hrec]

theorem pollLoop_error
    (responses : Nat → Except HttpErrorKind (Option RegistrationOperationStatus)) :
    ∀ k n tick e, k < n →
      (∀ j, j < k → skippableProbe responses (tick + j)) →
      responses (tick + k) = .error e →
      pollLoop responses tick n = (.error (.http e), k + 1) := by
  intro k
  induction k with
  | zero =>
    intro n tick e hk hpre he
    rw [Nat.add_zero] at he
    match n, hk with
    | m + 1, _ => simp [pollLoop, get_operation_status, he]
  | succ j ih =>
    intro n tick e hk hpre he
    match n, hk with
    | m + 1, hk =>
      obtain ⟨r0, hg0, hs0⟩ := hpre 0 (Nat.succ_pos j)
      rw [Nat.add_zero] at hg0
      have hrec := ih m (tick + 1) e (Nat.lt_of_succ_lt_succ hk)
        (fun i hi => by
          have hh := hpre (i + 1) (Nat.succ_lt_succ hi)
          have heq : tick + (i + 1) = tick + 1 + i := by omega
          rwa [heq] at hh)
        (by
          have heq : tick + (j + 1) = tick + 1 + j := by omega
          rwa [heq] at he)
      simp [pollLoop, hg0, hs0, hrec]

/-! ### Claim theorems -/

/-- C1: for every retry count `N` and every sequence of poll responses, the
polling loop issues at most `N` status probes: if all `N` probes yield
skippable results it completes with no result after exactly `N` probes
(issuing no `(N+1)`-th probe), and if probe `k` (0-indexed, `k < N`) yields
the first non-skippable result, polling stops immediately with that result
after `k + 1` probes, issuing no probe `k + 2`. -/
theorem claim_C1_bounded_polling
    (responses : Nat → Except HttpErrorKind (Option RegistrationOperationStatus))
    (N : Nat) :
    ((∀ k, k < N → skippableProbe responses k) →
      get_device_registration_result responses N = (.ok none, N)) ∧
    (∀ k r, k < N → (∀ j, j < k → skippableProbe responses j) →
      get_operation_status (responses k) = .ok r →
      is_skippable_result r = .ok false →
      get_device_registration_result responses N = (.ok r, k + 1)) := by
  constructor
  · intro h
    exact pollLoop_all_skip responses N 0 (fun k hk => by simpa using h k hk)
  · intro k r hk hpre hg hs
    exact pollLoop_stops responses k N 0 r hk
      (fun j hj => by simpa using hpre j hj) (by simpa using hg) hs

/-- A sequence of poll responses all of which are skippable (success with no
parsable operation status body). -/
def respAllSkippable : Nat → Except HttpErrorKind (Option RegistrationOperationStatus) :=
  fun _ => .ok none

/-- A terminal device registration result carrying a device id and a hub. -/
def drFinal : DeviceRegistrationResult :=
  ⟨"reg", "assigned", some "device", some "hub", none⟩

/-- A sequence of poll responses whose probe 0 is skippable (no registration
state) and whose probe 1 carries a terminal registration state. -/
def respEventuallyFinal : Nat → Except HttpErrorKind (Option RegistrationOperationStatus) :=
  fun k =>
    if k = 0 then .ok (some ⟨"operation", none, none⟩)
    else .ok (some ⟨"operation", none, some drFinal⟩)

theorem claim_C1_bounded_polling_witness :
    get_device_registration_result respAllSkippable 3 = (.ok none, 3) ∧
    get_device_registration_result respEventuallyFinal 13 = (.ok (some drFinal), 2) :=
  ⟨(claim_C1_bounded_polling respAllSkippable 3).1 (fun _ _ => ⟨none, rfl, rfl⟩),
   (claim_C1_bounded_polling respEventuallyFinal 13).2 1 (some drFinal) (by omega)
     (fun j hj => by
       have hj0 : j = 0 := by omega
       subst hj0
       exact ⟨none, rfl, rfl⟩)
     rfl (by decide)⟩

/-- C4: `is_skippable_result` never returns an error; an absent result is
skippable, and a present result is skippable exactly when its status equals
`"assigning"` up to ASCII case. -/
theorem claim_C4_skippable_predicate (d : DeviceRegistrationResult) :
    is_skippable_result none = .ok true ∧
    is_skippable_result (some d) = .ok (d.status.data.map asciiLower == "assigning".data) ∧
    ∃ b, is_skippable_result (some d) = .ok b := by
  refine ⟨rfl, ?_, ⟨_, rfl⟩⟩
  have h : "assigning".data.map asciiLower = "assigning".data := rfl
  simp [is_skippable_result, eqIgnoreAsciiCase, h]

/-- C5: the retry count used for polling is the truncating division of the
120-second assignment timeout by the 10-second poll interval plus one, equal to
the ceiling form `ceil(timeout / interval) + 1` since the division is exact,
and its value is 13. -/
theorem claim_C5_retry_count :
    registerRetryCount =
      (DPS_ASSIGNMENT_TIMEOUT_SECS + DPS_ASSIGNMENT_RETRY_INTERVAL_SECS - 1) /
        DPS_ASSIGNMENT_RETRY_INTERVAL_SECS + 1 ∧
    registerRetryCount = 13 := by
  decide

/-- C8: if the status probe of tick `k` fails at the transport level (all
earlier ticks being skippable), the polling computation fails immediately with
the error kind wrapping that same transport failure, after `k + 1` probes,
however much retry budget remains. -/
theorem claim_C8_poll_transport_failure
    (responses : Nat → Except HttpErrorKind (Option RegistrationOperationStatus))
    (N k : Nat) (e : HttpErrorKind)
    (hk : k < N)
    (hpre : ∀ j, j < k → skippableProbe responses j)
    (he : responses k = .error e) :
    get_device_registration_result responses N = (.error (ErrorKind.http e), k + 1) :=
  pollLoop_error responses k N 0 e hk
    (fun j hj => by simpa using hpre j hj) (by simpa using he)

/-- A sequence of poll responses whose probe 0 is skippable and whose probe 1
fails at the transport level. -/
def respFailing : Nat → Except HttpErrorKind (Option RegistrationOperationStatus) :=
  fun k => if k = 0 then .ok none else .error .other

theorem append_length_pos (s t : String) (h : 0 < s.length) : 0 < (s ++ t).length := by
  rw [String.length_append]
  omega

theorem urlAppendPair_of_pos (t k v : String) (h : 0 < t.length) :
    urlAppendPair t k v = t ++ "&" ++ formUrlencode k ++ "=" ++ formUrlencode v := by
  simp [urlAppendPair, h]

theorem formUrlencode_sig : formUrlencode "sig" = "sig" := by decide

theorem formUrlencode_se : formUrlencode "se" = "se" := by decide

theorem formUrlencode_skn : formUrlencode "skn" = "skn" := by decide

theorem formUrlencode_registration : formUrlencode "registration" = "registration" := by decide

/-- Token string as the claim (and spec §4.1) describes it literally:
`sr=<resourceUri>&sig=<base64sig>&se=<expirySeconds>&skn=registration`, with
the raw base64 signature and decimal expiry spliced in unescaped. -/
def claimedTokenLiteral (ts : DpsTokenSource) (expiry : Int) (sigBytes : KeyBytes) : String :=
  "sr=" ++ token_resource_uri ts ++ "&sig=" ++ b64encodeString sigBytes ++
    "&se=" ++ toString expiry ++ "&skn=registration"

/-- A token source whose key signs every input with 32 zero bytes (the length
of an HMAC-SHA256 digest). -/
def tsZeroKey : DpsTokenSource :=
  ⟨"Scope", "Reg", ⟨fun _ _ => .ok (List.replicate 32 0)⟩⟩

/-- C2 counterexample: for the concrete token source whose key signs with 32
zero bytes and expiry 0, the token produced by `DpsTokenSource::get` is not the
literal `sr=...&sig=<base64sig>&se=...&skn=registration` string of the claim —
the serializer form-urlencodes the signature, so its trailing base64 `=`
padding appears as `%3D`. -/
theorem claim_C2_token_counterexample :
    tsZeroKey.key.sign .hmacsha256 (utf8Bytes (token_sig_data tsZeroKey 0))
        = .ok (List.replicate 32 0) ∧
    DpsTokenSource.get tsZeroKey 0
        ≠ .ok (claimedTokenLiteral tsZeroKey 0 (List.replicate 32 0)) := by
  decide

/-- C2 (amended): for every key, expiry, scope id and registration id, the
token is the deterministic function of those inputs built as the claim says —
audience lowercased, percent-encoded under the path-segment set extended with
`=`, signed over `"{resourceUri}\n{expirySeconds}"` — except that the `sig` and
`se` values are form-urlencoded by the serializer (escaping the base64
signature's `+`, `/` and `=` as `%2B`, `%2F`, `%3D`; the decimal expiry is
unchanged by this encoding). -/
theorem claim_C2_token_construction (ts : DpsTokenSource) (expiry : Int) (s : KeyBytes)
    (h : ts.key.sign .hmacsha256 (utf8Bytes (token_sig_data ts expiry)) = .ok s) :
    DpsTokenSource.get ts expiry
      = .ok ("sr=" ++ token_resource_uri ts ++
          "&" ++ "sig" ++ "=" ++ formUrlencode (b64encodeString s) ++
          "&" ++ "se" ++ "=" ++ formUrlencode (toString expiry) ++
          "&" ++ "skn" ++ "=" ++ "registration") := by
  have h0 : ("sr=" : String).length = 3 := rfl
  have h1 : 0 < ("sr=" ++ token_resource_uri ts).length := by
    rw [String.length_append, h0]
    omega
  have h2 := append_length_pos _ (formUrlencode (b64encodeString s))
    (append_length_pos _ "=" (append_length_pos _ (formUrlencode "sig")
      (append_length_pos _ "&" h1)))
  have h3 := append_length_pos _ (formUrlencode (toString expiry))
    (append_length_pos _ "=" (append_length_pos _ (formUrlencode "se")
      (append_length_pos _ "&" h2)))
  simp only [DpsTokenSource.get, h]
  rw [urlAppendPair_of_pos ("sr=" ++ token_resource_uri ts) "sig" (b64encodeString s) h1]
  rw [urlAppendPair_of_pos _ "se" (toString expiry) h2]
  rw [urlAppendPair_of_pos _ "skn" "registration" h3]
  rw [formUrlencode_sig, formUrlencode_se, formUrlencode_skn, formUrlencode_registration]

theorem claim_C2_token_construction_witness :
    DpsTokenSource.get tsZeroKey 0
      = .ok ("sr=" ++ token_resource_uri tsZeroKey ++
          "&" ++ "sig" ++ "=" ++ formUrlencode (b64encodeString (List.replicate 32 0)) ++
          "&" ++ "se" ++ "=" ++ formUrlencode (toString (0 : Int)) ++
          "&" ++ "skn" ++ "=" ++ "registration") :=
  claim_C2_token_construction tsZeroKey 0 (List.replicate 32 0) rfl

/-- C6: if the initial unsigned register request succeeds at the transport
level (whatever the body), the flow fails with `Unexpected`: the key store is
untouched (no challenge handling), the signed reissue is not issued, and the
full registration flow fails the same way having issued no poll probe. -/
theorem claim_C6_unsigned_success_unexpected
    (body : Option TpmRegistrationResult)
    (signedResponse : Except HttpErrorKind (Option RegistrationOperationStatus))
    (pollResponses : Nat → Except HttpErrorKind (Option RegistrationOperationStatus))
    (ks : KeyStore) :
    register_with_auth (.ok body) signedResponse ks = (.error .unexpected, ks, false) ∧
    register (.ok body) signedResponse pollResponses ks = (.error .unexpected, ks, 0) := by
  constructor <;> rfl

/-- C7: a 401 on the unsigned register attempt whose body parses as a
`TpmRegistrationResult` without an `authenticationKey` fails with
`InvalidTpmToken` and no signed register request is issued; any non-401
transport failure is surfaced wrapped unmodified (kind `http`) with no retry
and no signed request. -/
theorem claim_C7_challenge_failures
    (signedResponse : Except HttpErrorKind (Option RegistrationOperationStatus))
    (ks : KeyStore) :
    (∀ b : TpmRegistrationResult, b.authentication_key = none →
      register_with_auth (.error (.serviceError 401 (.ok b))) signedResponse ks
        = (.error .invalidTpmToken, ks, false)) ∧
    (∀ e : HttpErrorKind, (∀ s body, e = .serviceError s body → s ≠ 401) →
      register_with_auth (.error e) signedResponse ks
        = (.error (.http e), ks, false)) := by
  constructor
  · intro b hb
    simp [register_with_auth, get_tpm_challenge_key, hb]
  · intro e he
    cases e with
    | serviceError s body =>
      have hs : s ≠ 401 := he s body rfl
      simp [register_with_auth, hs]
    | other => rfl

theorem claim_C7_challenge_failures_witness :
    register_with_auth (.error (.serviceError 401 (.ok ⟨none⟩))) (.ok none) KeyStore.empty
      = (.error .invalidTpmToken, KeyStore.empty, false) ∧
    register_with_auth (.error (.serviceError 404 (.ok ⟨none⟩))) (.ok none) KeyStore.empty
      = (.error (.http (.serviceError 404 (.ok ⟨none⟩))), KeyStore.empty, false) :=
  ⟨(claim_C7_challenge_failures (.ok none) KeyStore.empty).1 ⟨none⟩ rfl,
   (claim_C7_challenge_failures (.ok none) KeyStore.empty).2
     (.serviceError 404 (.ok ⟨none⟩)) (fun s body h => by cases h; decide)⟩

/-- C3: given a non-skippable polled result whose nested `tpm.authenticationKey`
is present and base64-decodes, the terminal stage of `register` activates the
decoded bytes as the primary device key in the key store (both on success and
on the `NotAssigned` path, i.e. before anything is returned to the caller), and
returns `Ok (deviceId, assignedHub)` exactly when both are present, failing
with `NotAssigned` when either is missing. -/
theorem claim_C3_terminal_handling (store : KeyStore) (r : DeviceRegistrationResult)
    (t : TpmRegistrationResult) (kstr : String) (kb : KeyBytes)
    (hns : is_skippable_result (some r) = .ok false)
    (ht : r.tpm = some t) (hk : t.authentication_key = some kstr)
    (hdec : b64decodeString kstr = some kb) :
    (register_terminal store (some r)).2
        = store.activate_identity_key .device "primary" kb ∧
    (∀ d h, (register_terminal store (some r)).1 = .ok (d, h) ↔
      r.device_id = some d ∧ r.assigned_hub = some h) ∧
    ((r.device_id = none ∨ r.assigned_hub = none) →
      (register_terminal store (some r)).1 = .error .notAssigned) := by
  have hrt : register_terminal store (some r)
      = (get_device_info r, store.activate_identity_key .device "primary" kb) := by
    simp [register_terminal, ht, hk, hdec]
  refine ⟨by rw [hrt], ?_, ?_⟩
  · intro d h
    rw [hrt]
    cases hd : r.device_id with
    | none => simp [get_device_info, hd]
    | some d0 =>
      cases hh : r.assigned_hub with
      | none => simp [get_device_info, hd, hh]
      | some h0 => simp [get_device_info, hd, hh]
  · intro hmiss
    rw [hrt]
    cases hmiss with
    | inl h0 => simp [get_device_info, h0]
    | inr h0 =>
      cases hd : r.device_id with
      | none => simp [get_device_info, hd]
      | some d0 => simp [get_device_info, hd, h0]

/-- A terminal registration result with an assigned device, hub, and the final
TPM authentication key `base64("key")`. -/
def drProvisioned : DeviceRegistrationResult :=
  ⟨"reg", "assigned", some "device", some "hub", some ⟨some "a2V5"⟩⟩

theorem claim_C3_terminal_handling_witness :
    (register_terminal KeyStore.empty (some drProvisioned)).2
        = KeyStore.empty.activate_identity_key .device "primary" [107, 101, 121] ∧
    (register_terminal KeyStore.empty (some drProvisioned)).1 = .ok ("device", "hub") :=
  have h := claim_C3_terminal_handling KeyStore.empty drProvisioned ⟨some "a2V5"⟩
    "a2V5" [107, 101, 121] (by decide) rfl rfl (by decide)
  ⟨h.1, (h.2.1 "device" "hub").2 ⟨rfl, rfl⟩⟩

/-- C9: if the polled non-skippable result lacks a `tpm` field, or its `tpm`
lacks an `authenticationKey`, the terminal stage of `register` fails with
`NotAssigned` and performs no key-store activation: the store is returned
unchanged, so the earlier challenge key stays active. -/
theorem claim_C9_missing_tpm_key (store : KeyStore) (r : DeviceRegistrationResult) :
    (r.tpm = none → register_terminal store (some r) = (.error .notAssigned, store)) ∧
    (∀ t, r.tpm = some t → t.authentication_key = none →
      register_terminal store (some r) = (.error .notAssigned, store)) := by
  constructor
  · intro h
    simp [register_terminal, h]
  · intro t ht hk
    simp [register_terminal, ht, hk]

theorem claim_C9_missing_tpm_key_witness :
    register_terminal KeyStore.empty (some ⟨"reg", "assigned", some "d", some "h", none⟩)
      = (.error .notAssigned, KeyStore.empty) ∧
    register_terminal KeyStore.empty (some ⟨"reg", "assigned", some "d", some "h", some ⟨none⟩⟩)
      = (.error .notAssigned, KeyStore.empty) :=
  ⟨(claim_C9_missing_tpm_key KeyStore.empty _).1 rfl,
   (claim_C9_missing_tpm_key KeyStore.empty _).2 ⟨none⟩ rfl rfl⟩

/-- C10: if the challenge succeeds but the signed register request returns a
transport success with no parsable operation status body, `register` fails with
`NotAssigned` without entering the polling loop (zero poll probes issued); the
key store holds the activated challenge key. -/
theorem claim_C10_absent_operation_status
    (pollResponses : Nat → Except HttpErrorKind (Option RegistrationOperationStatus))
    (store : KeyStore) (b : TpmRegistrationResult) (kstr : String) (kb : KeyBytes)
    (hk : b.authentication_key = some kstr) (hdec : b64decodeString kstr = some kb) :
    register (.error (.serviceError 401 (.ok b))) (.ok none) pollResponses store
      = (.error .notAssigned, store.activate_identity_key .device "primary" kb, 0) := by
  simp [register, register_with_auth, get_tpm_challenge_key, get_operation_id, hk, hdec,
    KeyStore.get_activate]

theorem claim_C10_absent_operation_status_witness :
    register (.error (.serviceError 401 (.ok ⟨some "a2V5"⟩))) (.ok none)
        (fun _ => .ok none) KeyStore.empty
      = (.error .notAssigned,
         KeyStore.empty.activate_identity_key .device "primary" [107, 101, 121], 0) :=
  claim_C10_absent_operation_status (fun _ => .ok none) KeyStore.empty ⟨some "a2V5"⟩
    "a2V5" [107, 101, 121] rfl (by decide)

theorem claim_C8_poll_transport_failure_witness :
    get_device_registration_result respFailing 13 = (.error (ErrorKind.http .other), 2) :=
  claim_C8_poll_transport_failure respFailing 13 1 .other (by omega)
    (fun j hj => by
      have hj0 : j = 0 := by omega
      subst hj0
      exact ⟨none, rfl, rfl⟩)
    rfl

end Dps
